import Mathlib

/-!
Verification of the Norwegian profit-extraction calculator (utbytte-skatt).

The JavaScript source computes all monetary values as numbers and publishes
them through `Math.round`.  The shallow embedding models the numbers as
rationals and `Math.round` as `jround x = ⌊x + 1/2⌋` (JavaScript rounds
half-way cases toward positive infinity).  Only the numeric fields that the
verified properties concern are embedded in the result structures; purely
presentational fields of the source (scenario names, calculation-step texts,
assumption lists) are omitted.
-/

namespace UtbytteSkatt

/-- JavaScript `Math.round`: nearest integer, halves toward +infinity. -/
def jround (x : ℚ) : ℚ := ((⌊x + 1/2⌋ : ℤ) : ℚ)

/-! ## Tax-rate configuration (src/config/taxRates.js) -/

/-- Corporate income tax rate, 22%. -/
def CORPORATE_TAX_RATE : ℚ := 22/100

/-- Personal flat tax rate on alminnelig inntekt, 22%. -/
def PERSONAL_TAX_RATE : ℚ := 22/100

/-- Employer social-security (arbeidsgiveravgift) rate per zone.
JavaScript looks the zone up in an object keyed by the strings
1, 1a, 2, 3, 4, 4a, 5; an unknown zone yields `undefined` (here `none`). -/
def EMPLOYER_SOCIAL_SECURITY_RATES : String → Option ℚ
  | "1" => some (141/1000)
  | "1a" => some (141/1000)
  | "2" => some (106/1000)
  | "3" => some (64/1000)
  | "4" => some (54/1000)
  | "4a" => some (79/1000)
  | "5" => some 0
  | _ => none

/-- Bracket-tax (trinnskatt) table for 2025: (threshold, marginal rate). -/
def BRACKET_TAX_2025 : List (ℚ × ℚ) :=
  [(217400, 17/1000), (306050, 4/100), (697150, 137/1000),
   (942400, 167/1000), (1410750, 176/1000)]

/-- Employee social-security (trygdeavgift) rate on salary, 7.8%. -/
def SOCIAL_SECURITY_RATE_salary : ℚ := 78/1000

/-- No employee social-security contribution at or below this gross salary. -/
def SOCIAL_SECURITY_THRESHOLD : ℚ := 69650

/-- Dividend gross-up factor (oppjusteringsfaktor) for 2025. -/
def DIVIDEND_GROSS_UP_FACTOR : ℚ := 172/100

/-- Skjermingsrente used for the skjermingsfradrag, 5%. -/
def SKJERMING_RATE_2025 : ℚ := 5/100

/-- Minstefradrag: rate, floor and cap. -/
def MINSTEFRADRAG_rate : ℚ := 46/100

def MINSTEFRADRAG_minimum : ℚ := 4000

def MINSTEFRADRAG_maximum : ℚ := 114950

/-- Personal allowance (personfradrag). -/
def PERSONFRADRAG : ℚ := 73150

/-- Minimum mandatory occupational-pension rate (OTP), 2%. -/
def OTP_MIN_RATE : ℚ := 2/100

/-- Maximum tax-deductible occupational-pension rate, 7%. -/
def OTP_MAX_RATE : ℚ := 7/100

/-- Upper sanity bound on the profit input, 100 billion NOK. -/
def MAX_PROFIT : ℚ := 100000000000

/-! ## Options shared by the scenario calculators -/

/-- The option fields read by the scenario calculators
(`includePension`, `pensionRate`, `retentionPercentage`, `shareCostBasis`).
The optimizer additionally reads `searchStep`, which this embedding fixes to
its default value 1. -/
structure Options where
  includePension : Bool := false
  pensionRate : ℚ := OTP_MIN_RATE
  retentionPercentage : ℚ := 0
  shareCostBasis : ℚ := 0
deriving DecidableEq, Repr

/-! ## Salary calculations (src/calculations/salaryCalculations.js) -/

/-- Published numbers of `calculateMaxGrossSalary`. -/
structure MaxGrossSalaryResult where
  grossSalary : ℚ
  employerAGA : ℚ
  pensionContribution : ℚ
  pensionAGA : ℚ
  totalEmployerCost : ℚ
deriving DecidableEq, Repr

/-- Body of `calculateMaxGrossSalary` after the zone rate has been resolved. -/
def maxGrossSalaryCore (availableAmount agaRate : ℚ)
    (includePension : Bool) (pensionRate : ℚ) : MaxGrossSalaryResult :=
  let pensionFactor := if includePension then pensionRate else 0
  let totalCostFactor := 1 + agaRate + pensionFactor * (1 + agaRate)
  let grossSalary := availableAmount / totalCostFactor
  let employerAGA := grossSalary * agaRate
  let pensionContribution := if includePension then grossSalary * pensionRate else 0
  let pensionAGA := pensionContribution * agaRate
  { grossSalary := jround grossSalary
    employerAGA := jround employerAGA
    pensionContribution := jround pensionContribution
    pensionAGA := jround pensionAGA
    totalEmployerCost := jround (grossSalary + employerAGA + pensionContribution + pensionAGA) }

/-- `calculateMaxGrossSalary(availableAmount, zone, includePension, pensionRate)`:
throws on an unknown zone, otherwise computes the gross salary reachable from
the budget. -/
def calculateMaxGrossSalary (availableAmount : ℚ) (zone : String)
    (includePension : Bool) (pensionRate : ℚ) : Except String MaxGrossSalaryResult :=
  match EMPLOYER_SOCIAL_SECURITY_RATES zone with
  | none => Except.error "Invalid employer zone"
  | some agaRate => Except.ok (maxGrossSalaryCore availableAmount agaRate includePension pensionRate)

/-- The bracket loop shared by `calculateBracketTax` and the inline loop in
`calculateCombinationScenario`: each bracket whose threshold is exceeded taxes
the slice up to the next threshold (`Infinity`, i.e. the salary itself, for the
last bracket) at its marginal rate. -/
def bracketLoop (grossSalary : ℚ) : List (ℚ × ℚ) → ℚ
  | [] => 0
  | (threshold, rate) :: rest =>
      (if threshold < grossSalary then
        ((match rest with
          | [] => grossSalary
          | (nextThreshold, _) :: _ => min grossSalary nextThreshold) - threshold) * rate
       else 0) + bracketLoop grossSalary rest

/-- Raw (unrounded) total bracket tax, as accumulated by the loops in both
`salaryCalculations.js` and `combinationCalculations.js`. -/
def bracketTaxRaw (grossSalary : ℚ) : ℚ := bracketLoop grossSalary BRACKET_TAX_2025

/-- `calculateBracketTax(grossSalary).totalBracketTax`: the rounded total. -/
def calculateBracketTax (grossSalary : ℚ) : ℚ := jround (bracketTaxRaw grossSalary)

/-- `calculateSocialSecurityContribution(grossSalary).contribution`: zero at or
below the threshold (a cliff), else 7.8% of the whole gross salary. -/
def calculateSocialSecurityContribution (grossSalary : ℚ) : ℚ :=
  if grossSalary ≤ SOCIAL_SECURITY_THRESHOLD then 0
  else jround (grossSalary * SOCIAL_SECURITY_RATE_salary)

/-- `calculateMinstefradrag(grossSalary).minstefradrag`:
`min(min(max(g×rate, floor), cap), g)`, rounded. -/
def calculateMinstefradrag (grossSalary : ℚ) : ℚ :=
  jround (min (min (max (grossSalary * MINSTEFRADRAG_rate) MINSTEFRADRAG_minimum)
      MINSTEFRADRAG_maximum) grossSalary)

/-- `calculateIncomeTax(grossSalary).incomeTax`: flat 22% of
`max(0, g − minstefradrag − personfradrag)`, rounded. -/
def calculateIncomeTax (grossSalary : ℚ) : ℚ :=
  let minstefradrag := calculateMinstefradrag grossSalary
  let taxableIncome := max 0 (grossSalary - minstefradrag - PERSONFRADRAG)
  jround (taxableIncome * PERSONAL_TAX_RATE)

/-! ## The common scenario result shape -/

/-- The `results` block shared by every scenario calculator. -/
structure ScenarioResults where
  netPrivatePayout : ℚ
  totalTaxPaid : ℚ
  effectiveTaxRate : ℚ
  retainedInCompany : ℚ
deriving DecidableEq, Repr

/-- A scenario outcome; only the numeric `results` block is embedded. -/
structure ScenarioResult where
  results : ScenarioResults
deriving DecidableEq, Repr

/-- Body of `calculateSalaryScenario` after the zone rate has been resolved
(the zone lookup happens inside `calculateMaxGrossSalary`). -/
def salaryScenarioCore (profit agaRate : ℚ) (opts : Options) : ScenarioResult :=
  let retainedAmount := profit * opts.retentionPercentage
  let availableForExtraction := profit - retainedAmount
  let salaryCalc := maxGrossSalaryCore availableForExtraction agaRate
      opts.includePension opts.pensionRate
  let grossSalary := salaryCalc.grossSalary
  let employerAGA := salaryCalc.employerAGA
  let trygdeavgift := calculateSocialSecurityContribution grossSalary
  let trinnskatt := calculateBracketTax grossSalary
  let inntektsskatt := calculateIncomeTax grossSalary
  let corporateTaxOnRetained := retainedAmount * CORPORATE_TAX_RATE
  let totalPersonalTax := trygdeavgift + trinnskatt + inntektsskatt
  let totalTax := employerAGA + totalPersonalTax + corporateTaxOnRetained
  let netSalary := grossSalary - totalPersonalTax
  let effectiveTaxRate := if 0 < profit then totalTax / profit else 0
  { results := { netPrivatePayout := netSalary
                 totalTaxPaid := jround totalTax
                 effectiveTaxRate := effectiveTaxRate
                 retainedInCompany := jround (retainedAmount - corporateTaxOnRetained) } }

/-- `calculateSalaryScenario(profit, zone, options)`: rejects an unknown zone
(the error escapes from `calculateMaxGrossSalary`). -/
def calculateSalaryScenario (profit : ℚ) (zone : String) (opts : Options) :
    Except String ScenarioResult :=
  match EMPLOYER_SOCIAL_SECURITY_RATES zone with
  | none => Except.error "Invalid employer zone"
  | some agaRate => Except.ok (salaryScenarioCore profit agaRate opts)

/-! ## Dividend calculations (src/calculations/dividendCalculations.js) -/

/-- Published numbers of `calculateDividendTax`. -/
structure DividendTaxResult where
  taxableDividend : ℚ
  grossedUpDividend : ℚ
  dividendTax : ℚ
  netDividend : ℚ
deriving DecidableEq, Repr

/-- `calculateDividendTax(dividendAmount, skjermingsfradrag)`: the shareholder
model with gross-up factor 1.72 and flat 22% on the grossed-up amount. -/
def calculateDividendTax (dividendAmount skjermingsfradrag : ℚ) : DividendTaxResult :=
  let taxableDividend := max 0 (dividendAmount - skjermingsfradrag)
  let grossedUpDividend := taxableDividend * DIVIDEND_GROSS_UP_FACTOR
  let dividendTax := grossedUpDividend * PERSONAL_TAX_RATE
  let netDividend := dividendAmount - dividendTax
  { taxableDividend := jround taxableDividend
    grossedUpDividend := jround grossedUpDividend
    dividendTax := jround dividendTax
    netDividend := jround netDividend }

/-- `calculateSkjermingsfradrag(costBasis, rate).skjermingsfradrag`: zero for a
missing or non-positive cost basis, else cost basis × rate, rounded. -/
def calculateSkjermingsfradrag (costBasis skjermingRate : ℚ) : ℚ :=
  if costBasis ≤ 0 then 0 else jround (costBasis * skjermingRate)

/-- `calculateCorporateTax(profit).corporateTax`: flat 22%, rounded. -/
def calculateCorporateTax (profit : ℚ) : ℚ := jround (profit * CORPORATE_TAX_RATE)

/-- `calculateDividendScenario(profit, options)`. -/
def calculateDividendScenario (profit : ℚ) (opts : Options) : ScenarioResult :=
  let retainedBeforeTax := profit * opts.retentionPercentage
  let availableForDividend := profit - retainedBeforeTax
  let totalCorporateTax := calculateCorporateTax profit
  let corporateTaxOnRetained := retainedBeforeTax * CORPORATE_TAX_RATE
  let retainedAfterTax := retainedBeforeTax - corporateTaxOnRetained
  let corporateTaxOnDistributed := availableForDividend * CORPORATE_TAX_RATE
  let dividendAvailable := availableForDividend - corporateTaxOnDistributed
  let skjermingsfradrag :=
    min (calculateSkjermingsfradrag opts.shareCostBasis SKJERMING_RATE_2025) dividendAvailable
  let dtr := calculateDividendTax dividendAvailable skjermingsfradrag
  let totalTax := totalCorporateTax + dtr.dividendTax
  let netPrivatePayout := dtr.netDividend
  let effectiveTaxRate := if 0 < profit then totalTax / profit else 0
  { results := { netPrivatePayout := jround netPrivatePayout
                 totalTaxPaid := jround totalTax
                 effectiveTaxRate := effectiveTaxRate
                 retainedInCompany := jround retainedAfterTax } }

/-! ## Combination calculations (src/calculations/combinationCalculations.js) -/

/-- Body of `calculateCombinationScenario` after the ratio check and the zone
lookup.  Unlike `calculateSalaryScenario` the inline salary-tax computation
here uses raw (unrounded) components, applies no threshold to the employee
social-security contribution, and applies no skjermingsfradrag. -/
def combinationScenarioCore (profit agaRate salaryRatio : ℚ) (opts : Options) :
    ScenarioResult :=
  let retainedAmount := profit * opts.retentionPercentage
  let availableForExtraction := profit - retainedAmount
  let salaryPortion := availableForExtraction * (salaryRatio / 100)
  let dividendPortion := availableForExtraction - salaryPortion
  let salaryCalc := maxGrossSalaryCore salaryPortion agaRate
      opts.includePension opts.pensionRate
  let grossSalary := salaryCalc.grossSalary
  let employerAGA := salaryCalc.employerAGA
  let trygdeavgift := grossSalary * SOCIAL_SECURITY_RATE_salary
  let trinnskatt := bracketTaxRaw grossSalary
  let minstefradrag := min (min (max (grossSalary * MINSTEFRADRAG_rate)
      MINSTEFRADRAG_minimum) MINSTEFRADRAG_maximum) grossSalary
  let taxableIncome := max 0 (grossSalary - minstefradrag - PERSONFRADRAG)
  let inntektsskatt := taxableIncome * PERSONAL_TAX_RATE
  let totalSalaryTax := trygdeavgift + trinnskatt + inntektsskatt
  let netSalary := grossSalary - totalSalaryTax
  let corporateTaxOnDividend := dividendPortion * CORPORATE_TAX_RATE
  let dividendAvailable := dividendPortion - corporateTaxOnDividend
  let corporateTaxOnRetained := retainedAmount * CORPORATE_TAX_RATE
  let totalCorporateTax := corporateTaxOnDividend + corporateTaxOnRetained
  let dtr := calculateDividendTax dividendAvailable 0
  let dividendTax := dtr.dividendTax
  let netDividend := dtr.netDividend
  let totalTax := employerAGA + totalSalaryTax + totalCorporateTax + dividendTax
  let netPrivatePayout := netSalary + netDividend
  let effectiveTaxRate := if 0 < profit then totalTax / profit else 0
  let retainedAfterTax := retainedAmount - corporateTaxOnRetained
  { results := { netPrivatePayout := jround netPrivatePayout
                 totalTaxPaid := jround totalTax
                 effectiveTaxRate := effectiveTaxRate
                 retainedInCompany := jround retainedAfterTax } }

/-- `calculateCombinationScenario(profit, zone, salaryRatio, options)`:
throws when the ratio is outside [0, 100] (checked first), then throws on an
unknown zone (inside `calculateMaxGrossSalary`), else returns the scenario. -/
def calculateCombinationScenario (profit : ℚ) (zone : String) (salaryRatio : ℚ)
    (opts : Options) : Except String ScenarioResult :=
  if salaryRatio < 0 ∨ 100 < salaryRatio then
    Except.error "Salary ratio must be between 0 and 100"
  else
    match EMPLOYER_SOCIAL_SECURITY_RATES zone with
    | none => Except.error "Invalid employer zone"
    | some agaRate => Except.ok (combinationScenarioCore profit agaRate salaryRatio opts)

/-! ## Optimizer (`findOptimalRatio`) -/

/-- The running optimum of the grid search: best ratio so far, its net payout,
and its total tax.  The tax starts at the sentinel `Infinity` (here `⊤`). -/
structure OptState where
  optimalRatio : ℕ
  optimalNetPayout : ℚ
  optimalTax : WithTop ℚ
deriving DecidableEq, Repr

/-- Net private payout of the combination scenario at an integer ratio,
the quantity the grid search compares. -/
def payoutAt (profit agaRate : ℚ) (opts : Options) (ratio : ℕ) : ℚ :=
  (combinationScenarioCore profit agaRate (ratio : ℚ) opts).results.netPrivatePayout

/-- Total tax of the combination scenario at an integer ratio. -/
def taxAt (profit agaRate : ℚ) (opts : Options) (ratio : ℕ) : ℚ :=
  (combinationScenarioCore profit agaRate (ratio : ℚ) opts).results.totalTaxPaid

/-- One iteration of the search loop: a ratio replaces the running optimum only
when its net payout is strictly greater (first-seen-wins on ties). -/
def optStep (f t : ℕ → ℚ) (st : OptState) (ratio : ℕ) : OptState :=
  if st.optimalNetPayout < f ratio then
    { optimalRatio := ratio, optimalNetPayout := f ratio, optimalTax := (t ratio : WithTop ℚ) }
  else st

/-- The search loop over the ratios `0, 1, ..., n1`, starting from
ratio 0, payout 0 and tax `Infinity`. -/
def optLoop (f t : ℕ → ℚ) (n : ℕ) : OptState :=
  (List.range n).foldl (optStep f t) ⟨0, 0, ⊤⟩

/-- One named entry of the `comparison` block of `findOptimalRatio`. -/
structure ComparisonEntry where
  ratio : ℚ
  netPayout : ℚ
  totalTax : WithTop ℚ
deriving DecidableEq, Repr

/-- The value returned by `findOptimalRatio` (search trace, savings deltas and
narrative analysis omitted). -/
structure FindOptimalResult where
  optimalRatio : ℕ
  optimalScenario : ScenarioResult
  comparisonOptimal : ComparisonEntry
  comparisonAllSalary : ComparisonEntry
  comparisonAllDividend : ComparisonEntry
  comparisonSplit5050 : ComparisonEntry
deriving DecidableEq, Repr

/-- `findOptimalRatio(profit, zone, options)` with the default search step 1:
evaluates the combination scenario at every integer ratio 0..100, keeps the
first strictly-improving ratio, and returns the optimum plus the three named
baselines.  With an unknown zone every in-loop evaluation throws and is
skipped, and the final out-of-loop `calculateCombinationScenario` call throws. -/
def findOptimalRatio (profit : ℚ) (zone : String) (opts : Options) :
    Except String FindOptimalResult :=
  match EMPLOYER_SOCIAL_SECURITY_RATES zone with
  | none => Except.error "Invalid employer zone"
  | some agaRate =>
    let st := optLoop (payoutAt profit agaRate opts) (taxAt profit agaRate opts) 101
    let optimalScenario := combinationScenarioCore profit agaRate (st.optimalRatio : ℚ) opts
    let scenario100Salary := combinationScenarioCore profit agaRate 100 opts
    let scenario100Dividend := combinationScenarioCore profit agaRate 0 opts
    let scenario5050 := combinationScenarioCore profit agaRate 50 opts
    Except.ok
      { optimalRatio := st.optimalRatio
        optimalScenario := optimalScenario
        comparisonOptimal :=
          { ratio := (st.optimalRatio : ℚ), netPayout := st.optimalNetPayout,
            totalTax := st.optimalTax }
        comparisonAllSalary :=
          { ratio := 100, netPayout := scenario100Salary.results.netPrivatePayout,
            totalTax := (scenario100Salary.results.totalTaxPaid : WithTop ℚ) }
        comparisonAllDividend :=
          { ratio := 0, netPayout := scenario100Dividend.results.netPrivatePayout,
            totalTax := (scenario100Dividend.results.totalTaxPaid : WithTop ℚ) }
        comparisonSplit5050 :=
          { ratio := 50, netPayout := scenario5050.results.netPrivatePayout,
            totalTax := (scenario5050.results.totalTaxPaid : WithTop ℚ) } }

/-- The three-way split every scenario's `results` block reports:
net private payout + total tax paid + amount retained in the company. -/
def reconSum (s : ScenarioResult) : ℚ :=
  s.results.netPrivatePayout + s.results.totalTaxPaid + s.results.retainedInCompany

/-! ## Input validation (src/validation/inputValidation.js)

A raw numeric field of the untrusted input is classified by how the
JavaScript checks treat it: `missing` (undefined, null or the empty string),
`nan` (a value whose numeric coercion is NaN), or `num q` (a value whose
numeric coercion is the number `q`). -/

/-- A raw value in a numeric input position. -/
inductive RawNum where
  | missing
  | nan
  | num (q : ℚ)
deriving DecidableEq, Repr

/-- The result shape every field validator returns:
`{isValid, errors, value}` (plus a warning for the cost basis). -/
structure VRes (α : Type) where
  isValid : Bool
  errors : List String
  value : Option α
  warning : Option String := none
deriving DecidableEq, Repr

/-- `validateProfit(profit)`. -/
def validateProfit (profit : RawNum) : VRes ℚ :=
  match profit with
  | .missing =>
      { isValid := false,
        errors := ["Overskudd før skatt er påkrevd (Annual profit before tax is required)"],
        value := none }
  | .nan =>
      { isValid := false,
        errors := ["Overskudd må være et tall (Profit must be a number)"],
        value := none }
  | .num q =>
      if q < 0 then
        { isValid := false,
          errors := ["Overskudd kan ikke være negativt (Profit cannot be negative)"],
          value := none }
      else if MAX_PROFIT < q then
        { isValid := false,
          errors := ["Overskudd overstiger maksimalt tillatt beløp"],
          value := none }
      else { isValid := true, errors := [], value := some q }

/-- A raw value in the zone position: missing, or the string it coerces to. -/
inductive RawZone where
  | missing
  | strv (s : String)
deriving DecidableEq, Repr

/-- `validateEmployerZone(zone)`: exact match against the known zone ids. -/
def validateEmployerZone (zone : RawZone) : VRes String :=
  match zone with
  | .missing =>
      { isValid := false,
        errors := ["Arbeidsgiveravgiftssone er påkrevd (Employer social security zone is required)"],
        value := none }
  | .strv s =>
      if (EMPLOYER_SOCIAL_SECURITY_RATES s).isSome then
        { isValid := true, errors := [], value := some s }
      else
        { isValid := false,
          errors := ["Ugyldig sone (Invalid zone)"],
          value := none }

/-- `validatePercentage(percentage, fieldName)`: a number in [0, 100]. -/
def validatePercentage (percentage : RawNum) (fieldName : String) : VRes ℚ :=
  match percentage with
  | .missing =>
      { isValid := false, errors := [fieldName ++ " er påkrevd"], value := none }
  | .nan =>
      { isValid := false, errors := [fieldName ++ " må være et tall"], value := none }
  | .num q =>
      if q < 0 ∨ 100 < q then
        { isValid := false, errors := [fieldName ++ " må være mellom 0 og 100"], value := none }
      else { isValid := true, errors := [], value := some q }

/-- A raw withdrawal-strategy value: not an object, or an object with an
optional `type` string and a raw `salaryRatio`. -/
inductive RawStrategy where
  | notObject
  | obj (type : Option String) (salaryRatio : RawNum)
deriving DecidableEq, Repr

/-- The sanitized withdrawal strategy. -/
structure Strategy where
  type : String
  salaryRatio : ℚ
  dividendRatio : ℚ
deriving DecidableEq, Repr

/-- `validateWithdrawalStrategy(strategy)`. -/
def validateWithdrawalStrategy (strategy : RawStrategy) : VRes Strategy :=
  match strategy with
  | .notObject =>
      { isValid := false,
        errors := ["Uttaksstrategi er påkrevd (Withdrawal strategy is required)"],
        value := none }
  | .obj type salaryRatio =>
      match type with
      | some "combination" =>
        let r := validatePercentage salaryRatio "Lønnsandel"
        match r.value, r.isValid with
        | some v, true =>
            { isValid := true, errors := [],
              value := some { type := "combination", salaryRatio := v, dividendRatio := 100 - v } }
        | _, _ => { isValid := false, errors := r.errors, value := none }
      | some "salary" =>
          { isValid := true, errors := [],
            value := some { type := "salary", salaryRatio := 100, dividendRatio := 0 } }
      | some "dividend" =>
          { isValid := true, errors := [],
            value := some { type := "dividend", salaryRatio := 0, dividendRatio := 100 } }
      | _ =>
          { isValid := false, errors := ["Ugyldig strategitype"], value := none }

/-- A raw pension-settings value: absent or `enabled: false` (both resolve to
the disabled state), `enabled: true` with a raw rate (`none` = non-numeric),
or any other object (invalid). -/
inductive RawPension where
  | absentOrDisabled
  | enabled (rate : Option ℚ)
  | invalidOther
deriving DecidableEq, Repr

/-- The sanitized pension settings. -/
structure PensionValue where
  enabled : Bool
  rate : ℚ
deriving DecidableEq, Repr

/-- Error message for a pension rate below the OTP floor. -/
def pensionMinError : String :=
  "Pensjonssats må være minst 2% (OTP minimum) (Pension rate must be at least 2%)"

/-- Error message for a pension rate above the deductible ceiling. -/
def pensionMaxError : String :=
  "Pensjonssats over 7% er ikke fradragsberettiget (Pension rate above 7% is not tax-deductible)"

/-- `validatePensionSettings(pensionSettings)`: the rate may be given as a
fraction (0 < r < 1) or as a whole percentage; it is validated against the
2%-7% window in percentage form and normalized to a fraction. -/
def validatePensionSettings (pensionSettings : RawPension) : VRes PensionValue :=
  match pensionSettings with
  | .absentOrDisabled =>
      { isValid := true, errors := [], value := some { enabled := false, rate := 0 } }
  | .invalidOther =>
      { isValid := false,
        errors := ["Ugyldig pensjonsinnstilling (Invalid pension setting)"],
        value := none }
  | .enabled none =>
      { isValid := false,
        errors := ["Pensjonssats må være et tall (Pension rate must be a number)"],
        value := none }
  | .enabled (some rate) =>
      let isDecimal := 0 < rate ∧ rate < 1
      let rateAsPercentage := if isDecimal then rate * 100 else rate
      if rateAsPercentage < 2 then
        { isValid := false, errors := [pensionMinError], value := none }
      else if 7 < rateAsPercentage then
        { isValid := false, errors := [pensionMaxError], value := none }
      else
        { isValid := true, errors := [],
          value := some { enabled := true, rate := if isDecimal then rate else rate / 100 } }

/-- A raw retention-settings value, analogous to `RawPension`. -/
inductive RawRetention where
  | absentOrDisabled
  | enabled (percentage : RawNum)
  | invalidOther
deriving DecidableEq, Repr

/-- The sanitized retention settings. -/
structure RetentionValue where
  enabled : Bool
  percentage : ℚ
deriving DecidableEq, Repr

/-- `validateRetentionSettings(retentionSettings)`. -/
def validateRetentionSettings (retentionSettings : RawRetention) : VRes RetentionValue :=
  match retentionSettings with
  | .absentOrDisabled =>
      { isValid := true, errors := [], value := some { enabled := false, percentage := 0 } }
  | .invalidOther =>
      { isValid := false,
        errors := ["Ugyldig tilbakeholdelsesinnstilling (Invalid retention setting)"],
        value := none }
  | .enabled percentage =>
      let r := validatePercentage percentage "Tilbakeholdelsesprosent"
      match r.value, r.isValid with
      | some v, true =>
          { isValid := true, errors := [],
            value := some { enabled := true, percentage := v / 100 } }
      | _, _ => { isValid := false, errors := r.errors, value := none }

/-- `validateShareCostBasis(costBasis)`: a missing cost basis is valid with a
null value and a warning; a negative or non-numeric one is an error. -/
def validateShareCostBasis (costBasis : RawNum) : VRes ℚ :=
  match costBasis with
  | .missing =>
      { isValid := true, errors := [], value := none,
        warning := some "Inngangsverdi ikke oppgitt - skjermingsfradrag beregnes ikke" }
  | .nan =>
      { isValid := false,
        errors := ["Inngangsverdi må være et tall (Cost basis must be a number)"],
        value := none }
  | .num q =>
      if q < 0 then
        { isValid := false,
          errors := ["Inngangsverdi kan ikke være negativ (Cost basis cannot be negative)"],
          value := none }
      else { isValid := true, errors := [], value := some q }

/-- The raw top-level input object. -/
structure RawInput where
  profit : RawNum
  employerZone : RawZone
  withdrawalStrategy : RawStrategy
  pension : RawPension
  retention : RawRetention
  shareCostBasis : RawNum
deriving DecidableEq, Repr

/-- The sanitized input object.  In the source each key is set only when its
validator succeeded; every failed validator has a null value, so copying each
validator's `value` reproduces the object built on the all-valid path. -/
structure SanitizedInput where
  profit : Option ℚ
  employerZone : Option String
  withdrawalStrategy : Option Strategy
  pension : Option PensionValue
  retention : Option RetentionValue
  shareCostBasis : Option ℚ
deriving DecidableEq, Repr

/-- The result of `validateCalculationInput`. -/
structure CalcValidation where
  isValid : Bool
  errors : List String
  warnings : List String
  sanitizedInput : Option SanitizedInput
deriving DecidableEq, Repr

/-- `validateCalculationInput(input)`: runs all six field validators
unconditionally, pushes the errors of every failed one, and returns the
sanitized input exactly when no error was collected. -/
def validateCalculationInput (input : RawInput) : CalcValidation :=
  let profitResult := validateProfit input.profit
  let zoneResult := validateEmployerZone input.employerZone
  let strategyResult := validateWithdrawalStrategy input.withdrawalStrategy
  let pensionResult := validatePensionSettings input.pension
  let retentionResult := validateRetentionSettings input.retention
  let costBasisResult := validateShareCostBasis input.shareCostBasis
  let errors :=
    (if profitResult.isValid then [] else profitResult.errors) ++
    (if zoneResult.isValid then [] else zoneResult.errors) ++
    (if strategyResult.isValid then [] else strategyResult.errors) ++
    (if pensionResult.isValid then [] else pensionResult.errors) ++
    (if retentionResult.isValid then [] else retentionResult.errors) ++
    (if costBasisResult.isValid then [] else costBasisResult.errors)
  let warnings :=
    if costBasisResult.isValid then
      match costBasisResult.warning with
      | some w => [w]
      | none => []
    else []
  { isValid := errors.isEmpty
    errors := errors
    warnings := warnings
    sanitizedInput :=
      if errors.isEmpty then
        some { profit := profitResult.value
               employerZone := zoneResult.value
               withdrawalStrategy := strategyResult.value
               pension := pensionResult.value
               retention := retentionResult.value
               shareCostBasis := costBasisResult.value }
      else none }

/-! ## Basic lemmas about rounding and the rate table -/

lemma jround_le (x : ℚ) : jround x ≤ x + 1/2 := by
  have h := Int.floor_le (x + 1/2)
  simpa [jround] using h

lemma le_jround (x : ℚ) : x - 1/2 ≤ jround x := by
  have h := Int.sub_one_lt_floor (x + 1/2)
  have : x - 1/2 < jround x := by
    simp only [jround]
    linarith
  linarith

lemma jround_nonneg {x : ℚ} (h : 0 ≤ x) : 0 ≤ jround x := by
  have : (0 : ℤ) ≤ ⌊x + 1/2⌋ :=
    Int.le_floor.mpr (by exact_mod_cast (by linarith : (0 : ℚ) ≤ x + 1/2))
  simp only [jround]
  exact_mod_cast this

lemma jround_mono {x y : ℚ} (h : x ≤ y) : jround x ≤ jround y := by
  have : ⌊x + 1/2⌋ ≤ ⌊y + 1/2⌋ := Int.floor_mono (by linarith)
  simp only [jround]
  exact_mod_cast this

lemma jround_intCast (n : ℤ) : jround (n : ℚ) = n := by
  simp only [jround]
  rw [add_comm, Int.floor_add_int]
  have h : ⌊(1/2 : ℚ)⌋ = 0 := by norm_num
  rw [h]
  push_cast
  ring

lemma jround_zero : jround 0 = 0 := by
  simpa using jround_intCast 0

lemma jround_jround (x : ℚ) : jround (jround x) = jround x :=
  jround_intCast ⌊x + 1/2⌋

lemma rates_nonneg {z : String} {r : ℚ}
    (h : EMPLOYER_SOCIAL_SECURITY_RATES z = some r) : 0 ≤ r ∧ r ≤ 1 := by
  unfold EMPLOYER_SOCIAL_SECURITY_RATES at h
  split at h <;> simp_all <;> norm_num [← h]

/-! ## C9: zero-rate zone passes the budget through -/

/-- C9 (corrected): in zone 5 (0% employer contribution, no pension) the
returned gross salary is the budget rounded to the nearest krone, hence
exactly the budget for every non-negative whole-krone budget. -/
theorem claim_C9 (n : ℤ) (hn : 0 ≤ n) (pensionRate : ℚ) :
    calculateMaxGrossSalary (n : ℚ) "5" false pensionRate =
      Except.ok (maxGrossSalaryCore (n : ℚ) 0 false pensionRate) ∧
    (maxGrossSalaryCore (n : ℚ) 0 false pensionRate).grossSalary = (n : ℚ) := by
  constructor
  · rfl
  · simp [maxGrossSalaryCore, jround_intCast]

/-- C9 witness: a budget of 1,000,000 in zone 5 comes back unchanged. -/
theorem claim_C9_witness :
    (0 : ℤ) ≤ 1000000 ∧
    (maxGrossSalaryCore ((1000000 : ℤ) : ℚ) 0 false OTP_MIN_RATE).grossSalary =
      ((1000000 : ℤ) : ℚ) :=
  ⟨by norm_num, (claim_C9 1000000 (by norm_num) OTP_MIN_RATE).2⟩

/-- C9 counterexample: the claim fails for a fractional budget: zone 5 with
budget 100.5 returns gross salary 101, not 100.5 (the source rounds every
published amount to the nearest krone). -/
theorem claim_C9_counterexample :
    calculateMaxGrossSalary (201/2) "5" false OTP_MIN_RATE =
      Except.ok (maxGrossSalaryCore (201/2) 0 false OTP_MIN_RATE) ∧
    (maxGrossSalaryCore (201/2) 0 false OTP_MIN_RATE).grossSalary = 101 ∧
    (101 : ℚ) ≠ 201/2 := by
  refine ⟨rfl, ?_, by norm_num⟩
  norm_num [maxGrossSalaryCore, jround]

/-! ## C7: the combination calculator rejects exactly the out-of-range ratios -/

/-- C7 (confirmed): given a valid zone, `calculateCombinationScenario` returns
a scenario for every ratio in [0, 100] and throws exactly when the ratio lies
outside [0, 100]. -/
theorem claim_C7 (profit : ℚ) (zone : String) (agaRate salaryRatio : ℚ) (opts : Options)
    (hz : EMPLOYER_SOCIAL_SECURITY_RATES zone = some agaRate) :
    (0 ≤ salaryRatio ∧ salaryRatio ≤ 100 →
      calculateCombinationScenario profit zone salaryRatio opts =
        Except.ok (combinationScenarioCore profit agaRate salaryRatio opts)) ∧
    (salaryRatio < 0 ∨ 100 < salaryRatio →
      calculateCombinationScenario profit zone salaryRatio opts =
        Except.error "Salary ratio must be between 0 and 100") := by
  constructor
  · rintro ⟨h0, h1⟩
    have hc : ¬(salaryRatio < 0 ∨ 100 < salaryRatio) := by
      push_neg
      exact ⟨h0, h1⟩
    simp only [calculateCombinationScenario, if_neg hc, hz]
  · intro h
    simp only [calculateCombinationScenario, if_pos h]

/-- C7 witness: in zone 1, ratio 50 yields a scenario and ratio 150 throws. -/
theorem claim_C7_witness :
    calculateCombinationScenario 1000000 "1" 50 {} =
      Except.ok (combinationScenarioCore 1000000 (141/1000) 50 {}) ∧
    calculateCombinationScenario 1000000 "1" 150 {} =
      Except.error "Salary ratio must be between 0 and 100" :=
  ⟨(claim_C7 1000000 "1" (141/1000) 50 {} rfl).1 ⟨by norm_num, by norm_num⟩,
   (claim_C7 1000000 "1" (141/1000) 150 {} rfl).2 (Or.inr (by norm_num))⟩

/-! ## C8: dual-unit pension-rate validation -/

/-- C8 (confirmed): with `enabled = true`, a numeric pension rate `r` is
accepted exactly when `r` as a fraction (for `0 < r < 1`) lies in
[0.02, 0.07], or `r` as a whole percentage (otherwise) lies in [2, 7]; every
accepted rate is normalized to its fractional form inside [0.02, 0.07], and
every rejected rate gets the error naming the 2% floor or the 7% ceiling. -/
theorem claim_C8 (r : ℚ) :
    ((validatePensionSettings (.enabled (some r))).isValid = true ↔
      ((0 < r ∧ r < 1) ∧ 2/100 ≤ r ∧ r ≤ 7/100) ∨
      (¬(0 < r ∧ r < 1) ∧ 2 ≤ r ∧ r ≤ 7)) ∧
    ((validatePensionSettings (.enabled (some r))).isValid = true →
      (validatePensionSettings (.enabled (some r))).value =
        some { enabled := true, rate := if 0 < r ∧ r < 1 then r else r / 100 } ∧
      2/100 ≤ (if 0 < r ∧ r < 1 then r else r / 100) ∧
      (if 0 < r ∧ r < 1 then r else r / 100) ≤ 7/100) ∧
    ((validatePensionSettings (.enabled (some r))).isValid = false →
      (validatePensionSettings (.enabled (some r))).errors = [pensionMinError] ∨
      (validatePensionSettings (.enabled (some r))).errors = [pensionMaxError]) := by
  have he : validatePensionSettings (.enabled (some r)) =
      (if (if 0 < r ∧ r < 1 then r * 100 else r) < 2 then
        ({ isValid := false, errors := [pensionMinError], value := none } : VRes PensionValue)
      else if 7 < (if 0 < r ∧ r < 1 then r * 100 else r) then
        { isValid := false, errors := [pensionMaxError], value := none }
      else
        { isValid := true, errors := [],
          value := some { enabled := true,
                          rate := if 0 < r ∧ r < 1 then r else r / 100 } }) := rfl
  rw [he]
  by_cases hd : 0 < r ∧ r < 1
  · simp only [if_pos hd]
    by_cases h2 : r * 100 < 2
    · rw [if_pos h2]
      refine ⟨?_, ?_, ?_⟩
      · constructor
        · intro h
          exact absurd h (by simp)
        · rintro (⟨-, hge, -⟩ | ⟨hnd, -, -⟩)
          · exact absurd h2 (by linarith)
          · exact absurd hd hnd
      · intro h
        exact absurd h (by simp)
      · intro _
        left
        rfl
    · by_cases h7 : 7 < r * 100
      · rw [if_neg h2, if_pos h7]
        refine ⟨?_, ?_, ?_⟩
        · constructor
          · intro h
            exact absurd h (by simp)
          · rintro (⟨-, -, hle⟩ | ⟨hnd, -, -⟩)
            · exact absurd h7 (by linarith)
            · exact absurd hd hnd
        · intro h
          exact absurd h (by simp)
        · intro _
          right
          rfl
      · rw [if_neg h2, if_neg h7]
        refine ⟨?_, ?_, ?_⟩
        · constructor
          · intro _
            exact Or.inl ⟨hd, by linarith, by linarith⟩
          · intro _
            rfl
        · intro _
          exact ⟨rfl, by linarith, by linarith⟩
        · intro h
          exact absurd h (by simp)
  · simp only [if_neg hd]
    by_cases h2 : r < 2
    · rw [if_pos h2]
      refine ⟨?_, ?_, ?_⟩
      · constructor
        · intro h
          exact absurd h (by simp)
        · rintro (⟨hdd, -, -⟩ | ⟨-, hge, -⟩)
          · exact absurd hdd hd
          · exact absurd h2 (by linarith)
      · intro h
        exact absurd h (by simp)
      · intro _
        left
        rfl
    · by_cases h7 : 7 < r
      · rw [if_neg h2, if_pos h7]
        refine ⟨?_, ?_, ?_⟩
        · constructor
          · intro h
            exact absurd h (by simp)
          · rintro (⟨hdd, -, -⟩ | ⟨-, -, hle⟩)
            · exact absurd hdd hd
            · exact absurd h7 (by linarith)
        · intro h
          exact absurd h (by simp)
        · intro _
          right
          rfl
      · rw [if_neg h2, if_neg h7]
        refine ⟨?_, ?_, ?_⟩
        · constructor
          · intro _
            exact Or.inr ⟨hd, by linarith, by linarith⟩
          · intro _
            rfl
        · intro _
          exact ⟨rfl, by linarith, by linarith⟩
        · intro h
          exact absurd h (by simp)

/-- C8 witness: rate 0.05 (already fractional) is accepted unchanged, and
rate 5 (whole percentage) is accepted and normalized to 0.05. -/
theorem claim_C8_witness :
    (validatePensionSettings (.enabled (some (1/20)))).isValid = true ∧
    (validatePensionSettings (.enabled (some (1/20)))).value =
      some { enabled := true, rate := 1/20 } ∧
    (validatePensionSettings (.enabled (some 5))).isValid = true ∧
    (validatePensionSettings (.enabled (some 5))).value =
      some { enabled := true, rate := 1/20 } := by
  have h1 := claim_C8 (1/20)
  have h2 := claim_C8 5
  have hv1 : (validatePensionSettings (.enabled (some (1/20)))).isValid = true :=
    h1.1.mpr (Or.inl (by norm_num))
  have hv2 : (validatePensionSettings (.enabled (some 5))).isValid = true :=
    h2.1.mpr (Or.inr (by norm_num))
  refine ⟨hv1, ?_, hv2, ?_⟩
  · have := (h1.2.1 hv1).1
    rwa [if_pos (by norm_num : (0:ℚ) < 1/20 ∧ (1/20:ℚ) < 1)] at this
  · have := (h2.2.1 hv2).1
    rw [if_neg (by norm_num : ¬((0:ℚ) < 5 ∧ (5:ℚ) < 1))] at this
    rw [this]
    norm_num

/-! ## C6: the top-level validator aggregates every field error -/

lemma vres_if_errors {α : Type} (v : VRes α) (h : v.isValid = true → v.errors = []) :
    (if v.isValid then ([] : List String) else v.errors) = v.errors := by
  by_cases hv : v.isValid
  · rw [if_pos hv, h hv]
  · rw [if_neg hv]

lemma validateProfit_valid (x : RawNum) :
    (validateProfit x).isValid = true → (validateProfit x).errors = [] := by
  cases x <;> simp only [validateProfit] <;> try split_ifs
  all_goals simp

lemma validateEmployerZone_valid (z : RawZone) :
    (validateEmployerZone z).isValid = true → (validateEmployerZone z).errors = [] := by
  cases z <;> simp only [validateEmployerZone] <;> try split_ifs
  all_goals simp

lemma validateWithdrawalStrategy_valid (s : RawStrategy) :
    (validateWithdrawalStrategy s).isValid = true →
      (validateWithdrawalStrategy s).errors = [] := by
  cases s with
  | notObject => simp [validateWithdrawalStrategy]
  | obj type salaryRatio =>
    simp only [validateWithdrawalStrategy]
    split
    · split <;> simp
    · simp
    · simp
    · simp

lemma validatePensionSettings_valid (p : RawPension) :
    (validatePensionSettings p).isValid = true → (validatePensionSettings p).errors = [] := by
  cases p with
  | absentOrDisabled => simp [validatePensionSettings]
  | invalidOther => simp [validatePensionSettings]
  | enabled rate =>
    cases rate with
    | none => simp [validatePensionSettings]
    | some r =>
      simp only [validatePensionSettings]
      split_ifs <;> simp

lemma validateRetentionSettings_valid (p : RawRetention) :
    (validateRetentionSettings p).isValid = true →
      (validateRetentionSettings p).errors = [] := by
  cases p with
  | absentOrDisabled => simp [validateRetentionSettings]
  | invalidOther => simp [validateRetentionSettings]
  | enabled percentage =>
    simp only [validateRetentionSettings]
    split <;> simp

lemma validateShareCostBasis_valid (x : RawNum) :
    (validateShareCostBasis x).isValid = true → (validateShareCostBasis x).errors = [] := by
  cases x <;> simp only [validateShareCostBasis] <;> try split_ifs
  all_goals simp

/-- C6 (confirmed): `validateCalculationInput` runs all six field validators
unconditionally and its error list is the concatenation of all their error
lists (in field order); `isValid` holds exactly when that list is empty, and
`sanitizedInput` is null exactly when it is not. -/
theorem claim_C6 (input : RawInput) :
    (validateCalculationInput input).errors =
      (validateProfit input.profit).errors ++
      (validateEmployerZone input.employerZone).errors ++
      (validateWithdrawalStrategy input.withdrawalStrategy).errors ++
      (validatePensionSettings input.pension).errors ++
      (validateRetentionSettings input.retention).errors ++
      (validateShareCostBasis input.shareCostBasis).errors ∧
    ((validateCalculationInput input).isValid = true ↔
      (validateCalculationInput input).errors = []) ∧
    ((validateCalculationInput input).sanitizedInput = none ↔
      (validateCalculationInput input).errors ≠ []) := by
  refine ⟨?_, ?_, ?_⟩
  · simp only [validateCalculationInput]
    rw [vres_if_errors _ (validateProfit_valid input.profit),
        vres_if_errors _ (validateEmployerZone_valid input.employerZone),
        vres_if_errors _ (validateWithdrawalStrategy_valid input.withdrawalStrategy),
        vres_if_errors _ (validatePensionSettings_valid input.pension),
        vres_if_errors _ (validateRetentionSettings_valid input.retention),
        vres_if_errors _ (validateShareCostBasis_valid input.shareCostBasis)]
  · simp only [validateCalculationInput]
    exact List.isEmpty_iff
  · simp only [validateCalculationInput]
    by_cases h : ((if (validateProfit input.profit).isValid then []
        else (validateProfit input.profit).errors) ++
      (if (validateEmployerZone input.employerZone).isValid then []
        else (validateEmployerZone input.employerZone).errors) ++
      (if (validateWithdrawalStrategy input.withdrawalStrategy).isValid then []
        else (validateWithdrawalStrategy input.withdrawalStrategy).errors) ++
      (if (validatePensionSettings input.pension).isValid then []
        else (validatePensionSettings input.pension).errors) ++
      (if (validateRetentionSettings input.retention).isValid then []
        else (validateRetentionSettings input.retention).errors) ++
      (if (validateShareCostBasis input.shareCostBasis).isValid then []
        else (validateShareCostBasis input.shareCostBasis).errors)) = []
    · simp [h]
    · simp [h, List.isEmpty_iff]

/-! ## C5: bracket tax is monotone, and its jumps at thresholds are bounded -/

lemma bracketTaxRaw_eval (g : ℚ) :
    bracketTaxRaw g =
      (if 217400 < g then (min g 306050 - 217400) * (17/1000) else 0) +
      ((if 306050 < g then (min g 697150 - 306050) * (4/100) else 0) +
      ((if 697150 < g then (min g 942400 - 697150) * (137/1000) else 0) +
      ((if 942400 < g then (min g 1410750 - 942400) * (167/1000) else 0) +
      ((if 1410750 < g then (g - 1410750) * (176/1000) else 0) + 0)))) := rfl

lemma slice_mono (th nxt r : ℚ) {g1 g2 : ℚ} (hth : th ≤ nxt) (hr : 0 ≤ r) (h : g1 ≤ g2) :
    (if th < g1 then (min g1 nxt - th) * r else 0) ≤
      (if th < g2 then (min g2 nxt - th) * r else 0) := by
  split_ifs with h1 h2 h2
  · exact mul_le_mul_of_nonneg_right
      (sub_le_sub_right (min_le_min h le_rfl) th) hr
  · exact absurd (lt_of_lt_of_le h1 h) h2
  · have hm : th ≤ min g2 nxt := le_min (le_of_lt h2) hth
    have : 0 ≤ min g2 nxt - th := by linarith
    exact mul_nonneg this hr
  · exact le_refl 0

lemma top_slice_mono (th r : ℚ) {g1 g2 : ℚ} (hr : 0 ≤ r) (h : g1 ≤ g2) :
    (if th < g1 then (g1 - th) * r else 0) ≤ (if th < g2 then (g2 - th) * r else 0) := by
  split_ifs with h1 h2 h2
  · exact mul_le_mul_of_nonneg_right (by linarith) hr
  · exact absurd (lt_of_lt_of_le h1 h) h2
  · have : 0 ≤ g2 - th := by linarith
    exact mul_nonneg this hr
  · exact le_refl 0

lemma bracketTaxRaw_mono {g1 g2 : ℚ} (h : g1 ≤ g2) :
    bracketTaxRaw g1 ≤ bracketTaxRaw g2 := by
  rw [bracketTaxRaw_eval g1, bracketTaxRaw_eval g2]
  have t1 := slice_mono 217400 306050 (17/1000) (by norm_num) (by norm_num) h
  have t2 := slice_mono 306050 697150 (4/100) (by norm_num) (by norm_num) h
  have t3 := slice_mono 697150 942400 (137/1000) (by norm_num) (by norm_num) h
  have t4 := slice_mono 942400 1410750 (167/1000) (by norm_num) (by norm_num) h
  have t5 := top_slice_mono 1410750 (176/1000) (by norm_num) h
  linarith

/-- C5 (corrected): `bracketTax` is monotonically non-decreasing (both the raw
total and the published rounded total), and at every threshold the tax is
continuous in the marginal-bracket sense: for ε within the adjacent brackets,
the tax at threshold+ε exceeds the tax at threshold−ε by at most
(preceding bracket rate + this bracket rate) × ε.  The claim's bound of
this bracket's rate × ε alone fails at every threshold with a positive
preceding rate (see the counterexample). -/
theorem claim_C5 :
    (∀ g1 g2 : ℚ, g1 ≤ g2 → bracketTaxRaw g1 ≤ bracketTaxRaw g2) ∧
    (∀ g1 g2 : ℚ, g1 ≤ g2 → calculateBracketTax g1 ≤ calculateBracketTax g2) ∧
    (∀ ε : ℚ, 0 < ε → ε ≤ 88650 →
      bracketTaxRaw (217400 + ε) - bracketTaxRaw (217400 - ε) ≤ (0 + 17/1000) * ε) ∧
    (∀ ε : ℚ, 0 < ε → ε ≤ 88650 →
      bracketTaxRaw (306050 + ε) - bracketTaxRaw (306050 - ε) ≤ (17/1000 + 4/100) * ε) ∧
    (∀ ε : ℚ, 0 < ε → ε ≤ 245250 →
      bracketTaxRaw (697150 + ε) - bracketTaxRaw (697150 - ε) ≤ (4/100 + 137/1000) * ε) ∧
    (∀ ε : ℚ, 0 < ε → ε ≤ 245250 →
      bracketTaxRaw (942400 + ε) - bracketTaxRaw (942400 - ε) ≤ (137/1000 + 167/1000) * ε) ∧
    (∀ ε : ℚ, 0 < ε → ε ≤ 468350 →
      bracketTaxRaw (1410750 + ε) - bracketTaxRaw (1410750 - ε) ≤ (167/1000 + 176/1000) * ε) := by
  refine ⟨fun g1 g2 h => bracketTaxRaw_mono h,
    fun g1 g2 h => jround_mono (bracketTaxRaw_mono h), ?_, ?_, ?_, ?_, ?_⟩
  · intro ε h0 hb
    rw [bracketTaxRaw_eval, bracketTaxRaw_eval]
    rw [min_eq_left (by linarith : (217400:ℚ) + ε ≤ 306050),
        if_pos (by linarith : (217400:ℚ) < 217400 + ε),
        if_neg (by linarith : ¬(306050:ℚ) < 217400 + ε),
        if_neg (by linarith : ¬(697150:ℚ) < 217400 + ε),
        if_neg (by linarith : ¬(942400:ℚ) < 217400 + ε),
        if_neg (by linarith : ¬(1410750:ℚ) < 217400 + ε),
        if_neg (by linarith : ¬(217400:ℚ) < 217400 - ε),
        if_neg (by linarith : ¬(306050:ℚ) < 217400 - ε),
        if_neg (by linarith : ¬(697150:ℚ) < 217400 - ε),
        if_neg (by linarith : ¬(942400:ℚ) < 217400 - ε),
        if_neg (by linarith : ¬(1410750:ℚ) < 217400 - ε)]
    linarith
  · intro ε h0 hb
    rw [bracketTaxRaw_eval, bracketTaxRaw_eval]
    rw [min_eq_right (by linarith : (306050:ℚ) ≤ 306050 + ε),
        min_eq_left (by linarith : (306050:ℚ) + ε ≤ 697150),
        min_eq_left (by linarith : (306050:ℚ) - ε ≤ 306050),
        if_pos (by linarith : (217400:ℚ) < 306050 + ε),
        if_pos (by linarith : (306050:ℚ) < 306050 + ε),
        if_neg (by linarith : ¬(697150:ℚ) < 306050 + ε),
        if_neg (by linarith : ¬(942400:ℚ) < 306050 + ε),
        if_neg (by linarith : ¬(1410750:ℚ) < 306050 + ε),
        if_neg (by linarith : ¬(306050:ℚ) < 306050 - ε),
        if_neg (by linarith : ¬(697150:ℚ) < 306050 - ε),
        if_neg (by linarith : ¬(942400:ℚ) < 306050 - ε),
        if_neg (by linarith : ¬(1410750:ℚ) < 306050 - ε)]
    split_ifs with h1
    · linarith
    · linarith
  · intro ε h0 hb
    rw [bracketTaxRaw_eval, bracketTaxRaw_eval]
    rw [min_eq_right (by linarith : (306050:ℚ) ≤ 697150 + ε),
        min_eq_right (by linarith : (697150:ℚ) ≤ 697150 + ε),
        min_eq_left (by linarith : (697150:ℚ) + ε ≤ 942400),
        min_eq_right (by linarith : (306050:ℚ) ≤ 697150 - ε),
        min_eq_left (by linarith : (697150:ℚ) - ε ≤ 697150),
        if_pos (by linarith : (217400:ℚ) < 697150 + ε),
        if_pos (by linarith : (306050:ℚ) < 697150 + ε),
        if_pos (by linarith : (697150:ℚ) < 697150 + ε),
        if_neg (by linarith : ¬(942400:ℚ) < 697150 + ε),
        if_neg (by linarith : ¬(1410750:ℚ) < 697150 + ε),
        if_pos (by linarith : (217400:ℚ) < 697150 - ε),
        if_pos (by linarith : (306050:ℚ) < 697150 - ε),
        if_neg (by linarith : ¬(697150:ℚ) < 697150 - ε),
        if_neg (by linarith : ¬(942400:ℚ) < 697150 - ε),
        if_neg (by linarith : ¬(1410750:ℚ) < 697150 - ε)]
    linarith
  · intro ε h0 hb
    rw [bracketTaxRaw_eval, bracketTaxRaw_eval]
    rw [min_eq_right (by linarith : (306050:ℚ) ≤ 942400 + ε),
        min_eq_right (by linarith : (697150:ℚ) ≤ 942400 + ε),
        min_eq_right (by linarith : (942400:ℚ) ≤ 942400 + ε),
        min_eq_left (by linarith : (942400:ℚ) + ε ≤ 1410750),
        min_eq_right (by linarith : (306050:ℚ) ≤ 942400 - ε),
        min_eq_left (by linarith : (942400:ℚ) - ε ≤ 942400),
        min_eq_right (by linarith : (697150:ℚ) ≤ 942400 - ε),
        if_pos (by linarith : (217400:ℚ) < 942400 + ε),
        if_pos (by linarith : (306050:ℚ) < 942400 + ε),
        if_pos (by linarith : (697150:ℚ) < 942400 + ε),
        if_pos (by linarith : (942400:ℚ) < 942400 + ε),
        if_neg (by linarith : ¬(1410750:ℚ) < 942400 + ε),
        if_pos (by linarith : (217400:ℚ) < 942400 - ε),
        if_pos (by linarith : (306050:ℚ) < 942400 - ε),
        if_neg (by linarith : ¬(942400:ℚ) < 942400 - ε),
        if_neg (by linarith : ¬(1410750:ℚ) < 942400 - ε)]
    split_ifs with h1
    · linarith
    · linarith
  · intro ε h0 hb
    rw [bracketTaxRaw_eval, bracketTaxRaw_eval]
    rw [min_eq_right (by linarith : (306050:ℚ) ≤ 1410750 + ε),
        min_eq_right (by linarith : (697150:ℚ) ≤ 1410750 + ε),
        min_eq_right (by linarith : (942400:ℚ) ≤ 1410750 + ε),
        min_eq_right (by linarith : (1410750:ℚ) ≤ 1410750 + ε),
        min_eq_right (by linarith : (306050:ℚ) ≤ 1410750 - ε),
        min_eq_right (by linarith : (697150:ℚ) ≤ 1410750 - ε),
        min_eq_right (by linarith : (942400:ℚ) ≤ 1410750 - ε),
        min_eq_left (by linarith : (1410750:ℚ) - ε ≤ 1410750),
        if_pos (by linarith : (217400:ℚ) < 1410750 + ε),
        if_pos (by linarith : (306050:ℚ) < 1410750 + ε),
        if_pos (by linarith : (697150:ℚ) < 1410750 + ε),
        if_pos (by linarith : (942400:ℚ) < 1410750 + ε),
        if_pos (by linarith : (1410750:ℚ) < 1410750 + ε),
        if_pos (by linarith : (217400:ℚ) < 1410750 - ε),
        if_pos (by linarith : (306050:ℚ) < 1410750 - ε),
        if_pos (by linarith : (697150:ℚ) < 1410750 - ε),
        if_neg (by linarith : ¬(1410750:ℚ) < 1410750 - ε)]
    split_ifs with h1
    · linarith
    · linarith

/-- C5 witness: monotonicity at 100,000 ≤ 200,000 and the amended jump bound
at the second threshold with ε = 100. -/
theorem claim_C5_witness :
    bracketTaxRaw 100000 ≤ bracketTaxRaw 200000 ∧
    bracketTaxRaw (306050 + 100) - bracketTaxRaw (306050 - 100) ≤ (17/1000 + 4/100) * 100 :=
  ⟨claim_C5.1 100000 200000 (by norm_num),
   claim_C5.2.2.2.1 100 (by norm_num) (by norm_num)⟩

/-- C5 counterexample: at the second threshold (306,050, rate 4%) with
ε = 100 the tax difference is 5.7 raw (6 after rounding), which exceeds
rate × ε = 4 (and exceeds it by more than any 1-krone rounding slack):
the jump also contains the preceding bracket's 1.7% slope. -/
theorem claim_C5_counterexample :
    bracketTaxRaw 306150 - bracketTaxRaw 305950 = 57/10 ∧
    calculateBracketTax 306150 - calculateBracketTax 305950 = 6 ∧
    (57/10 : ℚ) > (4/100) * 100 + 1 ∧ (6 : ℚ) > (4/100) * 100 + 1 := by
  refine ⟨?_, ?_, by norm_num, by norm_num⟩
  · rw [bracketTaxRaw_eval, bracketTaxRaw_eval]
    norm_num [min_def]
  · rw [calculateBracketTax, calculateBracketTax, bracketTaxRaw_eval, bracketTaxRaw_eval]
    norm_num [min_def, jround]

/-! ## The grid search: first-seen-wins argmax -/

lemma bracketTaxRaw_zero : bracketTaxRaw 0 = 0 := by
  rw [bracketTaxRaw_eval]
  norm_num

lemma optLoop_succ (f t : ℕ → ℚ) (n : ℕ) :
    optLoop f t (n+1) = optStep f t (optLoop f t n) n := by
  simp [optLoop, List.range_succ]

lemma optLoop_no_update (f t : ℕ → ℚ) (n : ℕ) (h : ∀ m, m < n → f m ≤ 0) :
    optLoop f t n = ⟨0, 0, ⊤⟩ := by
  induction n with
  | zero => rfl
  | succ n ih =>
    rw [optLoop_succ, ih (fun m hm => h m (Nat.lt_succ_of_lt hm))]
    simp only [optStep]
    rw [if_neg]
    simp only [not_lt]
    exact h n (Nat.lt_succ_self n)

/-- The search loop returns the least ratio attaining the grid maximum,
provided the payout at ratio 0 is at least the initial sentinel 0. -/
lemma optLoop_argmax (f t : ℕ → ℚ) (h0 : 0 ≤ f 0) (n : ℕ) :
    ∃ k : ℕ, k ≤ n ∧ (optLoop f t (n+1)).optimalRatio = k ∧
      (optLoop f t (n+1)).optimalNetPayout = f k ∧
      (∀ m, m ≤ n → f m ≤ f k) ∧ (∀ j, j < k → f j < f k) := by
  induction n with
  | zero =>
    have h1 : optLoop f t 1 = optStep f t ⟨0, 0, ⊤⟩ 0 := by
      rw [optLoop_succ]; rfl
    by_cases hc : (0:ℚ) < f 0
    · refine ⟨0, le_refl 0, ?_, ?_, ?_, ?_⟩
      · rw [h1]; simp [optStep, hc]
      · rw [h1]; simp [optStep, hc]
      · intro m hm
        rw [Nat.le_zero.mp hm]
      · intro j hj
        exact absurd hj (Nat.not_lt_zero j)
    · have hf0 : f 0 = 0 := le_antisymm (not_lt.mp hc) h0
      refine ⟨0, le_refl 0, ?_, ?_, ?_, ?_⟩
      · rw [h1]; simp [optStep, hc]
      · rw [h1]; simp [optStep, hc, hf0]
      · intro m hm
        rw [Nat.le_zero.mp hm]
      · intro j hj
        exact absurd hj (Nat.not_lt_zero j)
  | succ n ih =>
    obtain ⟨k, hk, hR, hP, hmax, hfirst⟩ := ih
    by_cases hc : (optLoop f t (n+1)).optimalNetPayout < f (n+1)
    · refine ⟨n+1, le_refl _, ?_, ?_, ?_, ?_⟩
      · rw [optLoop_succ, optStep, if_pos hc]
      · rw [optLoop_succ, optStep, if_pos hc]
      · intro m hm
        rcases Nat.lt_succ_iff_lt_or_eq.mp (Nat.lt_succ_of_le hm) with hm' | hm'
        · have := hmax m (Nat.lt_succ_iff.mp hm')
          rw [hP] at hc
          linarith
        · rw [hm']
      · intro j hj
        have := hmax j (Nat.lt_succ_iff.mp hj)
        rw [hP] at hc
        linarith
    · refine ⟨k, Nat.le_succ_of_le hk, ?_, ?_, ?_, hfirst⟩
      · rw [optLoop_succ, optStep, if_neg hc]
        exact hR
      · rw [optLoop_succ, optStep, if_neg hc]
        exact hP
      · intro m hm
        rcases Nat.lt_succ_iff_lt_or_eq.mp (Nat.lt_succ_of_le hm) with hm' | hm'
        · exact hmax m (Nat.lt_succ_iff.mp hm')
        · rw [hm']
          rw [hP] at hc
          exact not_lt.mp hc

/-- At ratio 0 the whole budget goes to dividends, whose net payout is
non-negative for a non-negative extraction budget. -/
lemma payoutAt_zero_nonneg (profit agaRate : ℚ) (opts : Options)
    (hp : 0 ≤ profit) (hr1 : opts.retentionPercentage ≤ 1) :
    0 ≤ payoutAt profit agaRate opts 0 := by
  have hA : 0 ≤ profit - profit * opts.retentionPercentage := by nlinarith
  simp only [payoutAt, combinationScenarioCore, maxGrossSalaryCore, calculateDividendTax]
  norm_num [jround_zero, bracketTaxRaw_zero, SOCIAL_SECURITY_RATE_salary, MINSTEFRADRAG_rate,
    MINSTEFRADRAG_minimum, MINSTEFRADRAG_maximum, PERSONFRADRAG, CORPORATE_TAX_RATE,
    DIVIDEND_GROSS_UP_FACTOR, PERSONAL_TAX_RATE]
  rw [jround_jround]
  rw [max_eq_right (by nlinarith :
    (0:ℚ) ≤ profit - profit * opts.retentionPercentage -
      (profit - profit * opts.retentionPercentage) * (11/50))]
  apply jround_nonneg
  nlinarith

/-- With zero profit every combination scenario pays out exactly zero. -/
lemma payoutAt_profit_zero (agaRate : ℚ) (opts : Options) (r : ℕ) :
    payoutAt 0 agaRate opts r = 0 := by
  simp only [payoutAt, combinationScenarioCore, maxGrossSalaryCore, calculateDividendTax]
  norm_num [jround_zero, bracketTaxRaw_zero, SOCIAL_SECURITY_RATE_salary, MINSTEFRADRAG_rate,
    MINSTEFRADRAG_minimum, MINSTEFRADRAG_maximum, PERSONFRADRAG, CORPORATE_TAX_RATE,
    DIVIDEND_GROSS_UP_FACTOR, PERSONAL_TAX_RATE]

/-! ## C2: the optimizer returns the first ratio attaining the grid maximum -/

/-- C2 (confirmed, on the validated input domain profit ≥ 0, retention ≤ 1):
with the default step 1, `findOptimalRatio` returns the lowest integer ratio
in 0..100 whose net private payout attains the grid maximum — every ratio's
payout is at most the returned ratio's, and every lower ratio's payout is
strictly smaller, so an equal later payout never replaces the incumbent. -/
theorem claim_C2 (profit : ℚ) (zone : String) (agaRate : ℚ) (opts : Options)
    (hp : 0 ≤ profit) (hr1 : opts.retentionPercentage ≤ 1)
    (hz : EMPLOYER_SOCIAL_SECURITY_RATES zone = some agaRate)
    (res : FindOptimalResult) (hres : findOptimalRatio profit zone opts = Except.ok res) :
    res.optimalRatio ≤ 100 ∧
    (∀ m : ℕ, m ≤ 100 →
      payoutAt profit agaRate opts m ≤ payoutAt profit agaRate opts res.optimalRatio) ∧
    (∀ j : ℕ, j < res.optimalRatio →
      payoutAt profit agaRate opts j < payoutAt profit agaRate opts res.optimalRatio) := by
  simp only [findOptimalRatio, hz, Except.ok.injEq] at hres
  subst hres
  obtain ⟨k, hk, hR, hP, hmax, hfirst⟩ :=
    optLoop_argmax (payoutAt profit agaRate opts) (taxAt profit agaRate opts)
      (payoutAt_zero_nonneg profit agaRate opts hp hr1) 100
  norm_num at hR
  dsimp only
  rw [hR]
  exact ⟨hk, hmax, hfirst⟩

/-- C2 witness: profit 1,000,000 in zone 1 with default options. -/
theorem claim_C2_witness :
    ∃ res, findOptimalRatio 1000000 "1" {} = Except.ok res ∧
      res.optimalRatio ≤ 100 ∧
      (∀ j : ℕ, j < res.optimalRatio →
        payoutAt 1000000 (141/1000) {} j <
          payoutAt 1000000 (141/1000) {} res.optimalRatio) := by
  refine ⟨_, rfl, ?_, ?_⟩
  · exact (claim_C2 1000000 "1" (141/1000) {} (by norm_num) (by norm_num) rfl _ rfl).1
  · exact (claim_C2 1000000 "1" (141/1000) {} (by norm_num) (by norm_num) rfl _ rfl).2.2

/-! ## C3: the optimum dominates the three named baselines -/

/-- C3 (confirmed, on the validated input domain): the optimal scenario's net
private payout is at least the net payout of each returned baseline
(ratio 100, ratio 0, ratio 50). -/
theorem claim_C3 (profit : ℚ) (zone : String) (agaRate : ℚ) (opts : Options)
    (hp : 0 ≤ profit) (hr1 : opts.retentionPercentage ≤ 1)
    (hz : EMPLOYER_SOCIAL_SECURITY_RATES zone = some agaRate)
    (res : FindOptimalResult) (hres : findOptimalRatio profit zone opts = Except.ok res) :
    res.comparisonAllSalary.netPayout ≤ res.optimalScenario.results.netPrivatePayout ∧
    res.comparisonAllDividend.netPayout ≤ res.optimalScenario.results.netPrivatePayout ∧
    res.comparisonSplit5050.netPayout ≤ res.optimalScenario.results.netPrivatePayout := by
  simp only [findOptimalRatio, hz, Except.ok.injEq] at hres
  subst hres
  obtain ⟨k, hk, hR, hP, hmax, hfirst⟩ :=
    optLoop_argmax (payoutAt profit agaRate opts) (taxAt profit agaRate opts)
      (payoutAt_zero_nonneg profit agaRate opts hp hr1) 100
  norm_num at hR
  dsimp only
  rw [hR]
  have h100 := hmax 100 (le_refl 100)
  have h0 := hmax 0 (by norm_num)
  have h50 := hmax 50 (by norm_num)
  simp only [payoutAt] at h100 h0 h50
  norm_num at h100 h0 h50
  exact ⟨h100, h0, h50⟩

/-- C3 witness: profit 1,000,000 in zone 1 with default options. -/
theorem claim_C3_witness :
    ∃ res, findOptimalRatio 1000000 "1" {} = Except.ok res ∧
      res.comparisonAllSalary.netPayout ≤ res.optimalScenario.results.netPrivatePayout ∧
      res.comparisonAllDividend.netPayout ≤ res.optimalScenario.results.netPrivatePayout := by
  refine ⟨_, rfl, ?_, ?_⟩
  · exact (claim_C3 1000000 "1" (141/1000) {} (by norm_num) (by norm_num) rfl _ rfl).1
  · exact (claim_C3 1000000 "1" (141/1000) {} (by norm_num) (by norm_num) rfl _ rfl).2.1

/-! ## C10: with no strictly positive payout, the sentinel survives -/

/-- C10 (confirmed): when no evaluated ratio has a strictly positive net
private payout, the search never updates its running optimum, so
`findOptimalRatio` reports ratio 0 with net payout 0, and `comparison.optimal`
carries the initial `Infinity` sentinel as its total tax — a value distinct
from the ratio-0 scenario's actual total tax. -/
theorem claim_C10 (profit : ℚ) (zone : String) (agaRate : ℚ) (opts : Options)
    (hz : EMPLOYER_SOCIAL_SECURITY_RATES zone = some agaRate)
    (hneg : ∀ r : ℕ, r ≤ 100 → payoutAt profit agaRate opts r ≤ 0)
    (res : FindOptimalResult) (hres : findOptimalRatio profit zone opts = Except.ok res) :
    res.optimalRatio = 0 ∧
    res.comparisonOptimal.netPayout = 0 ∧
    res.comparisonOptimal.totalTax = ⊤ ∧
    res.comparisonOptimal.totalTax ≠
      ((combinationScenarioCore profit agaRate 0 opts).results.totalTaxPaid : WithTop ℚ) := by
  simp only [findOptimalRatio, hz, Except.ok.injEq] at hres
  subst hres
  have hempty : optLoop (payoutAt profit agaRate opts) (taxAt profit agaRate opts) 101 =
      ⟨0, 0, ⊤⟩ :=
    optLoop_no_update _ _ 101 (fun m hm => hneg m (Nat.lt_succ_iff.mp hm))
  dsimp only
  rw [hempty]
  refine ⟨rfl, rfl, rfl, ?_⟩
  simp

/-- C10 witness: profit 0 in zone 1 — every ratio pays out exactly 0, the
reported optimum is ratio 0 with payout 0, and the reported optimal total tax
is the `Infinity` sentinel. -/
theorem claim_C10_witness :
    ∃ res, findOptimalRatio 0 "1" {} = Except.ok res ∧
      res.optimalRatio = 0 ∧
      res.comparisonOptimal.netPayout = 0 ∧
      res.comparisonOptimal.totalTax = ⊤ := by
  refine ⟨_, rfl, ?_⟩
  have h := claim_C10 0 "1" (141/1000) {} rfl
    (fun r _ => le_of_eq (payoutAt_profit_zero (141/1000) {} r)) _ rfl
  exact ⟨h.1, h.2.1, h.2.2.1⟩

/-! ## C1: the reconciliation invariant -/

lemma jround_add_ints (x y : ℚ) : jround (jround x + jround y) = jround x + jround y := by
  have h : jround x + jround y = ((⌊x + 1/2⌋ + ⌊y + 1/2⌋ : ℤ) : ℚ) := by
    simp [jround]
  rw [h, jround_intCast]

/-- C1 (corrected): with pension disabled (any retention and cost basis),
every scenario's `netPrivatePayout + totalTaxPaid + retainedInCompany`
reconciles with the profit to within 4 kroner of rounding slack.  With
pension enabled the identity fails: the pension contribution and its employer
contribution are deducted from the extractable budget but counted in none of
the three buckets (see the counterexample). -/
theorem claim_C1 (profit : ℚ) (zone : String) (agaRate salaryRatio : ℚ) (opts : Options)
    (hp : 0 ≤ profit)
    (hz : EMPLOYER_SOCIAL_SECURITY_RATES zone = some agaRate)
    (hpen : opts.includePension = false) :
    |reconSum (salaryScenarioCore profit agaRate opts) - profit| ≤ 4 ∧
    |reconSum (calculateDividendScenario profit opts) - profit| ≤ 4 ∧
    |reconSum (combinationScenarioCore profit agaRate salaryRatio opts) - profit| ≤ 4 ∧
    calculateSalaryScenario profit zone opts =
      Except.ok (salaryScenarioCore profit agaRate opts) := by
  have haga : 0 ≤ agaRate := (rates_nonneg hz).1
  refine ⟨?_, ?_, ?_, ?_⟩
  · simp only [reconSum, salaryScenarioCore, maxGrossSalaryCore, hpen, Bool.false_eq_true,
      if_false, zero_mul, mul_zero, add_zero, zero_add, CORPORATE_TAX_RATE]
    set R := profit * opts.retentionPercentage with hR
    set g := (profit - R) / (1 + agaRate) with hg
    have hF : (1:ℚ) + agaRate ≠ 0 := by
      intro h
      linarith
    have hcancel : g * (1 + agaRate) = profit - R := div_mul_cancel₀ _ hF
    have hexp : g + g * agaRate = profit - R := by
      rw [← hcancel]
      ring
    set Tp := calculateSocialSecurityContribution (jround g) + calculateBracketTax (jround g) +
      calculateIncomeTax (jround g) with hTp
    have b1l := le_jround g
    have b1u := jround_le g
    have b2l := le_jround (g * agaRate)
    have b2u := jround_le (g * agaRate)
    have b3l := le_jround (jround (g * agaRate) + Tp + R * (22/100))
    have b3u := jround_le (jround (g * agaRate) + Tp + R * (22/100))
    have b4l := le_jround (R - R * (22/100))
    have b4u := jround_le (R - R * (22/100))
    rw [abs_le]
    constructor <;> linarith
  · simp only [reconSum, calculateDividendScenario, calculateCorporateTax, calculateDividendTax,
      calculateSkjermingsfradrag, CORPORATE_TAX_RATE, DIVIDEND_GROSS_UP_FACTOR,
      PERSONAL_TAX_RATE, SKJERMING_RATE_2025]
    set R := profit * opts.retentionPercentage with hR
    set D := profit - R - (profit - R) * (22 / 100) with hD
    set skj := (if opts.shareCostBasis ≤ 0 then 0
      else jround (opts.shareCostBasis * (5 / 100))) ⊓ D with hskj
    set dt := (0 ⊔ (D - skj)) * (172 / 100) * (22 / 100) with hdt
    rw [jround_jround, jround_add_ints]
    have b1l := le_jround (D - dt)
    have b1u := jround_le (D - dt)
    have b2l := le_jround (profit * (22 / 100))
    have b2u := jround_le (profit * (22 / 100))
    have b3l := le_jround dt
    have b3u := jround_le dt
    have b4l := le_jround (R - R * (22 / 100))
    have b4u := jround_le (R - R * (22 / 100))
    rw [abs_le]
    constructor <;> linarith
  · simp only [reconSum, combinationScenarioCore, maxGrossSalaryCore, calculateDividendTax,
      hpen, Bool.false_eq_true, if_false, zero_mul, mul_zero, add_zero, zero_add, sub_zero,
      CORPORATE_TAX_RATE, DIVIDEND_GROSS_UP_FACTOR, PERSONAL_TAX_RATE,
      SOCIAL_SECURITY_RATE_salary, MINSTEFRADRAG_rate, MINSTEFRADRAG_minimum,
      MINSTEFRADRAG_maximum, PERSONFRADRAG]
    set R := profit * opts.retentionPercentage with hR
    set SP := (profit - R) * (salaryRatio / 100) with hSP
    set g := SP / (1 + agaRate) with hg
    set G := jround g with hG
    set Tsal := G * (78 / 1000) + bracketTaxRaw G +
      (0 ⊔ (G - (G * (46 / 100) ⊔ 4000) ⊓ 114950 ⊓ G - 73150)) * (22 / 100) with hTsal
    set DP := profit - R - SP with hDP
    set D := DP - DP * (22 / 100) with hD
    set dt := (0 ⊔ D) * (172 / 100) * (22 / 100) with hdt
    have hF : (1:ℚ) + agaRate ≠ 0 := by
      intro h
      linarith
    have hcancel : g * (1 + agaRate) = SP := div_mul_cancel₀ _ hF
    have hexp : g + g * agaRate = SP := by
      rw [← hcancel]
      ring
    have bG1 := le_jround g
    have bG2 := jround_le g
    have bA1 := le_jround (g * agaRate)
    have bA2 := jround_le (g * agaRate)
    have bN1 := le_jround (D - dt)
    have bN2 := jround_le (D - dt)
    have bd1 := le_jround dt
    have bd2 := jround_le dt
    have bX1 := le_jround (G - Tsal + jround (D - dt))
    have bX2 := jround_le (G - Tsal + jround (D - dt))
    have bY1 := le_jround (jround (g * agaRate) + Tsal +
      (DP * (22 / 100) + R * (22 / 100)) + jround dt)
    have bY2 := jround_le (jround (g * agaRate) + Tsal +
      (DP * (22 / 100) + R * (22 / 100)) + jround dt)
    have bZ1 := le_jround (R - R * (22 / 100))
    have bZ2 := jround_le (R - R * (22 / 100))
    rw [abs_le]
    constructor <;> linarith
  · simp only [calculateSalaryScenario, hz]

/-- C1 witness: profit 1,000,000 in zone 1, 30% retention, cost basis
100,000, pension disabled, combination ratio 50. -/
theorem claim_C1_witness :
    (0:ℚ) ≤ 1000000 ∧
    EMPLOYER_SOCIAL_SECURITY_RATES "1" = some (141/1000) ∧
    |reconSum (salaryScenarioCore 1000000 (141/1000)
      { includePension := false, pensionRate := 2/100,
        retentionPercentage := 3/10, shareCostBasis := 100000 }) - 1000000| ≤ 4 ∧
    |reconSum (calculateDividendScenario 1000000
      { includePension := false, pensionRate := 2/100,
        retentionPercentage := 3/10, shareCostBasis := 100000 }) - 1000000| ≤ 4 ∧
    |reconSum (combinationScenarioCore 1000000 (141/1000) 50
      { includePension := false, pensionRate := 2/100,
        retentionPercentage := 3/10, shareCostBasis := 100000 }) - 1000000| ≤ 4 :=
  ⟨by norm_num, rfl,
   (claim_C1 1000000 "1" (141/1000) 50
     { includePension := false, pensionRate := 2/100,
       retentionPercentage := 3/10, shareCostBasis := 100000 }
     (by norm_num) rfl rfl).1,
   (claim_C1 1000000 "1" (141/1000) 50
     { includePension := false, pensionRate := 2/100,
       retentionPercentage := 3/10, shareCostBasis := 100000 }
     (by norm_num) rfl rfl).2.1,
   (claim_C1 1000000 "1" (141/1000) 50
     { includePension := false, pensionRate := 2/100,
       retentionPercentage := 3/10, shareCostBasis := 100000 }
     (by norm_num) rfl rfl).2.2.1⟩

/-- C1 counterexample: with pension enabled (2%), profit 1,000,000 in zone 1,
the salary scenario's three buckets sum to less than 981,000 — more than
19,000 kroner short of the profit, far beyond rounding tolerance, because the
pension contribution and its employer contribution are dropped. -/
theorem claim_C1_counterexample :
    calculateSalaryScenario 1000000 "1"
      { includePension := true, pensionRate := 2/100,
        retentionPercentage := 0, shareCostBasis := 0 } =
      Except.ok (salaryScenarioCore 1000000 (141/1000)
        { includePension := true, pensionRate := 2/100,
          retentionPercentage := 0, shareCostBasis := 0 }) ∧
    reconSum (salaryScenarioCore 1000000 (141/1000)
      { includePension := true, pensionRate := 2/100,
        retentionPercentage := 0, shareCostBasis := 0 }) < 1000000 - 19000 := by
  constructor
  · rfl
  · norm_num [reconSum, salaryScenarioCore, maxGrossSalaryCore,
      calculateSocialSecurityContribution, calculateBracketTax, calculateIncomeTax,
      calculateMinstefradrag, bracketTaxRaw_eval, jround, CORPORATE_TAX_RATE,
      PERSONAL_TAX_RATE, SOCIAL_SECURITY_RATE_salary, SOCIAL_SECURITY_THRESHOLD,
      MINSTEFRADRAG_rate,
      MINSTEFRADRAG_minimum, MINSTEFRADRAG_maximum, PERSONFRADRAG, min_def, max_def]

/-! ## C4: ratio-100 combination vs the pure salary scenario -/

/-- C4 (code bug): at profit 50,000 in zone 1 the ratio-100 combination
scenario pays out 40,403 while the pure salary scenario pays out 43,821 — a
3,418-krone gap, the employee social-security contribution that the inline
salary-tax computation in `calculateCombinationScenario` charges on a gross
salary of 43,821 even though it is below the 69,650 threshold honoured by
`calculateSocialSecurityContribution`.  The ratio-0 side of the claim holds
exactly at the same input. -/
theorem claim_C4 :
    EMPLOYER_SOCIAL_SECURITY_RATES "1" = some (141/1000) ∧
    (combinationScenarioCore 50000 (141/1000) 100 {}).results.netPrivatePayout = 40403 ∧
    (salaryScenarioCore 50000 (141/1000) {}).results.netPrivatePayout = 43821 ∧
    (salaryScenarioCore 50000 (141/1000) {}).results.netPrivatePayout -
      (combinationScenarioCore 50000 (141/1000) 100 {}).results.netPrivatePayout = 3418 ∧
    (combinationScenarioCore 50000 (141/1000) 0 {}).results.netPrivatePayout =
      (calculateDividendScenario 50000 {}).results.netPrivatePayout := by
  have hc100 : (combinationScenarioCore 50000 (141/1000) 100 {}).results.netPrivatePayout
      = 40403 := by
    norm_num [combinationScenarioCore, maxGrossSalaryCore, calculateDividendTax,
      bracketTaxRaw_eval, jround, CORPORATE_TAX_RATE, DIVIDEND_GROSS_UP_FACTOR,
      PERSONAL_TAX_RATE, SOCIAL_SECURITY_RATE_salary, MINSTEFRADRAG_rate,
      MINSTEFRADRAG_minimum, MINSTEFRADRAG_maximum, PERSONFRADRAG, min_def, max_def]
  have hsal : (salaryScenarioCore 50000 (141/1000) {}).results.netPrivatePayout = 43821 := by
    norm_num [salaryScenarioCore, maxGrossSalaryCore, calculateSocialSecurityContribution,
      calculateBracketTax, calculateIncomeTax, calculateMinstefradrag, bracketTaxRaw_eval,
      jround, CORPORATE_TAX_RATE, PERSONAL_TAX_RATE, SOCIAL_SECURITY_RATE_salary,
      SOCIAL_SECURITY_THRESHOLD, MINSTEFRADRAG_rate, MINSTEFRADRAG_minimum,
      MINSTEFRADRAG_maximum, PERSONFRADRAG, min_def, max_def]
  have hc0 : (combinationScenarioCore 50000 (141/1000) 0 {}).results.netPrivatePayout
      = 24242 := by
    norm_num [combinationScenarioCore, maxGrossSalaryCore, calculateDividendTax,
      bracketTaxRaw_eval, jround, CORPORATE_TAX_RATE, DIVIDEND_GROSS_UP_FACTOR,
      PERSONAL_TAX_RATE, SOCIAL_SECURITY_RATE_salary, MINSTEFRADRAG_rate,
      MINSTEFRADRAG_minimum, MINSTEFRADRAG_maximum, PERSONFRADRAG, min_def, max_def]
  have hdiv : (calculateDividendScenario 50000 {}).results.netPrivatePayout = 24242 := by
    norm_num [calculateDividendScenario, calculateCorporateTax, calculateDividendTax,
      calculateSkjermingsfradrag, jround, CORPORATE_TAX_RATE, DIVIDEND_GROSS_UP_FACTOR,
      PERSONAL_TAX_RATE, SKJERMING_RATE_2025, min_def, max_def]
  refine ⟨rfl, hc100, hsal, ?_, ?_⟩
  · rw [hc100, hsal]
    norm_num
  · rw [hc0, hdiv]

end UtbytteSkatt
